import Mathlib

/-!
Verification of the djfapi dynamic router-construction engine against its
natural-language specification.  The definitions below are a shallow
embedding of `src/djfapi/routing/django.py` (class `DjangoRouterSchema`) and
`src/djfapi/utils/fastapi_django.py` (function `aggregation`).  Machine data
(Django model instances, querysets, filter predicates, pydantic payloads) is
represented by explicit Lean datatypes; fallible paths (Django `DoesNotExist`,
Python `AttributeError` / `IndexError`, `NotImplementedError`) are represented
with `Except`.
-/

namespace Djfapi

/-- An access context (djdantic `Access`): tenant identity of the caller.
Only the `tenant_id` attribute is consulted by the code under verification. -/
structure Access where
  tenant_id : String
deriving DecidableEq, Repr

/-- A persisted record of one model.  `id` is the primary key, `tenant_id`
is the value of the model's tenant column when present, `parent_id` is the
value of the foreign key pointing at the parent resource's record (the
column Django consults for the related manager `getattr(parent, name)`),
`status` is the status column used by soft delete. -/
structure Record where
  id : String
  tenant_id : Option String
  parent_id : Option String
  status : Option String
deriving DecidableEq, Repr

/-- Errors a queryset operation can surface: Django `DoesNotExist` /
`MultipleObjectsReturned` from `.get`, Python `AttributeError` from
`access.tenant_id` when `access` is `None`, Python `IndexError` from
`parent_ids[-1]` on an empty list. -/
inductive QErr where
  | doesNotExist
  | multipleObjectsReturned
  | attributeError
  | indexError
deriving DecidableEq, Repr

/-- One resource level: whether its model has a `tenant_id` attribute and the
rows stored for that model.  A nested resource is a level together with the
list of its ancestor levels (nearest ancestor first), mirroring the
`parent` chain of `DjangoRouterSchema`. -/
structure Level where
  hasTenantId : Bool
  records : List Record
deriving DecidableEq, Repr

/-- `DjangoRouterSchema.objects_filter` ("Security filtering"): when the model
carries a `tenant_id` attribute the filter is `Q(tenant_id=access.tenant_id)`;
evaluating `access.tenant_id` with `access = None` raises `AttributeError`.
Otherwise the filter is the empty `Q()`. -/
def objects_filter (hasTenant : Bool) (access : Option Access) : Except QErr (Record → Bool) :=
  if hasTenant then
    match access with
    | none => .error .attributeError
    | some a => .ok (fun r => r.tenant_id == some a.tenant_id)
  else
    .ok (fun _ => true)

/-- Django `QuerySet.get(pk=pid)`: exactly one matching row, else
`DoesNotExist` / `MultipleObjectsReturned`. -/
def qs_get (l : List Record) (pid : String) : Except QErr Record :=
  match l.filter (fun r => r.id == pid) with
  | [] => .error .doesNotExist
  | [r] => .ok r
  | _ => .error .multipleObjectsReturned

/-- `DjangoRouterSchema.get_queryset`: with a parent, resolve the parent
record by primary key `parent_ids[-1]` inside the parent's own queryset
(recursively scoped), take the related manager on it, then apply
`objects_filter`.  Annotations and `distinct` (which do not change set
membership) are not modelled; `is_annotated=False`, `is_aggregated=True`
corresponds to this plain filtered row set. -/
def get_queryset (self : Level) : List Level → List String → Option Access → Except QErr (List Record)
  | [], _, access =>
    match objects_filter self.hasTenantId access with
    | .error e => .error e
    | .ok f => .ok (self.records.filter f)
  | p :: rest, parent_ids, access =>
    match get_queryset p rest parent_ids.dropLast access with
    | .error e => .error e
    | .ok parentList =>
      match parent_ids.getLast? with
      | none => .error .indexError
      | some pid =>
        match qs_get parentList pid with
        | .error e => .error e
        | .ok parent =>
          match objects_filter self.hasTenantId access with
          | .error e => .error e
          | .ok f => .ok ((self.records.filter (fun r => r.parent_id == some parent.id)).filter f)

/-- Pagination state (offset and limit). Modelled from the spec: the
pagination collaborator (`djfapi.utils.fastapi.Pagination`, not under
`src/`) holds an ordering field list plus offset/cursor and limit. -/
structure Pagination where
  offset : Nat
  limit : Option Nat
deriving DecidableEq, Repr

/-- Modelled from the spec: `Pagination.query` applies ordering and
offset/limit slicing to a row set (ordering is not modelled; slicing keeps a
sublist, which is all the theorems below rely on). -/
def Pagination.query (p : Pagination) (l : List Record) : List Record :=
  match p.limit with
  | some n => (l.drop p.offset).take n
  | none => l.drop p.offset

/-- `DjangoRouterSchema.objects_get_filtered`: the scoped queryset, filtered
by the compiled search predicate, paginated, and materialised to a list. -/
def objects_get_filtered (self : Level) (anc : List Level) (parent_ids : List String)
    (access : Option Access) (search : Record → Bool) (pagination : Pagination) :
    Except QErr (List Record) :=
  match get_queryset self anc parent_ids access with
  | .error e => .error e
  | .ok l => .ok (pagination.query (l.filter search))

/-- `DjangoRouterSchema.object_get_by_id`: `get_queryset(...).get(id=id)`.
Django `.get` raises `DoesNotExist` when no row matches and
`MultipleObjectsReturned` when several do. -/
def object_get_by_id (self : Level) (anc : List Level) (i : String) (parent_ids : List String)
    (access : Option Access) : Except QErr Record :=
  match get_queryset self anc parent_ids access with
  | .error e => .error e
  | .ok l => qs_get l i

/-- A query-parameter value as bound by the transport layer (a scalar, a
list of identifiers, an integer or a boolean). -/
inductive Val where
  | s (v : String)
  | listv (vs : List String)
  | iv (n : Int)
  | bv (v : Bool)
deriving DecidableEq, Repr

/-- Modelled from the spec: `remove_none` (djdantic `utils.dict.remove_none`,
an external collaborator) drops entries whose value is `None`. -/
def remove_none (kwargs : List (String × Option Val)) : List (String × Val) :=
  kwargs.filterMap (fun kv => kv.2.map (fun w => (kv.1, w)))

/-- A store-native filter predicate, mirroring how `search_filter` composes
`django.db.models.Q` objects: one conjunctive keyword block `Q(**kwargs)`,
conjunction `&` and negation `~`. -/
inductive QExpr where
  | base (pairs : List (String × Val))
  | qand (a b : QExpr)
  | qnot (a : QExpr)
deriving DecidableEq, Repr

/-- `DjangoRouterSchema.search_filter`: builds `Q(**remove_none(kwargs))` and,
when the resource has a `delete_status` and the bound `status__in` parameter
is present with value `None`, conjoins `~Q(status=self.delete_status)`. -/
def search_filter (delete_status : Option Val) (kwargs : List (String × Option Val)) : QExpr :=
  let q := QExpr.base (remove_none kwargs)
  match delete_status with
  | some d =>
    if kwargs.lookup "status__in" = some none then
      QExpr.qand q (QExpr.qnot (QExpr.base [("status", d)]))
    else q
  | none => q

/-- Modelled from the spec: evaluation of a single Django field lookup by the
store.  A key ending in `__in` is list containment on the base field; any
other key is an equality test.  (Only these two lookup forms are needed by
the theorems below.) -/
def evalLookup (get : String → Option Val) (k : String) (v : Val) : Bool :=
  if ("__in".data.isSuffixOf k.data) then
    match v, get ⟨k.data.take (k.data.length - 4)⟩ with
    | .listv vs, some (.s w) => vs.contains w
    | _, _ => false
  else get k == some v

/-- Modelled from the spec: conjunctive evaluation of a compiled predicate by
the store (`Q(**kwargs)` is a conjunction of its lookups). -/
def QExpr.matches (get : String → Option Val) : QExpr → Bool
  | .base pairs => pairs.all (fun kv => evalLookup get kv.1 kv.2)
  | .qand a b => a.matches get && b.matches get
  | .qnot a => !(a.matches get)

/-- Operation kinds.  Modelled from the spec: the `Method` enumeration lives
in `djfapi.routing` (not under `src/`); `src` matches on `Method.POST`,
`Method.PUT`, `Method.PATCH`, `Method.DELETE` and passes `method.value` to
`getattr` on the per-operation scope container. -/
inductive Method where
  | get
  | get_list
  | get_aggregate
  | post
  | put
  | patch
  | delete
deriving DecidableEq, Repr

/-- Per-operation scope lists.  Modelled from the spec: the `SecurityScopes`
container (djfapi.routing, not under `src/`) holds one scope list per
operation kind, read via `getattr(self.security_scopes, method.value)`. -/
structure SecurityScopes where
  get : List String
  get_list : List String
  get_aggregate : List String
  post : List String
  put : List String
  patch : List String
  delete : List String
deriving DecidableEq, Repr

/-- Reading the scope bucket for one method (`getattr(sc, method.value)`). -/
def SecurityScopes.forMethod (sc : SecurityScopes) : Method → List String
  | .get => sc.get
  | .get_list => sc.get_list
  | .get_aggregate => sc.get_aggregate
  | .post => sc.post
  | .put => sc.put
  | .patch => sc.patch
  | .delete => sc.delete

/-- The security-relevant attributes of one resource descriptor: its optional
explicit `security_scopes` and whether it declares a `security` scheme.  A
descriptor chain is `self :: ancestors` (nearest ancestor first). -/
structure SecNode where
  security_scopes : Option SecurityScopes
  security : Bool
deriving DecidableEq, Repr

/-- `DjangoRouterSchema._get_security_scopes` over the chain
`self :: ancestors`: the explicit scope list wins when truthy (non-empty);
otherwise look up the parent, remapping POST/PUT/PATCH/DELETE to PATCH; a
root without scopes yields `None`. -/
def get_security_scopes : List SecNode → Method → Option (List String)
  | [], _ => none
  | s :: anc, m =>
    let inherited := get_security_scopes anc
      (if m = .post ∨ m = .put ∨ m = .patch ∨ m = .delete then .patch else m)
    match s.security_scopes with
    | some sc => if sc.forMethod m ≠ [] then some (sc.forMethod m) else inherited
    | none => inherited

/-- `DjangoRouterSchema._get_security`: `(None, None)` when the resolved
scopes are falsy; otherwise the nearest declared `security` scheme (own,
else inherited from the parent chain) paired with the scopes.  The first
component is `true` when a security scheme was found. -/
def get_security : List SecNode → Method → Bool × Option (List String)
  | [], _ => (false, none)
  | s :: anc, m =>
    match get_security_scopes (s :: anc) m with
    | none => (false, none)
    | some [] => (false, none)
    | some scopes =>
      if s.security then (true, some scopes)
      else
        match anc with
        | p :: rest => ((get_security (p :: rest) m).1, some scopes)
        | [] => (false, none)

/-- `DjangoRouterSchema._security_signature`: the `access` parameter is added
to the endpoint signature only when `_get_security` found a security scheme. -/
def security_signature (chain : List SecNode) (m : Method) : List String :=
  if (get_security chain m).1 then ["access"] else []

/-- The engine-level cause chained onto a `django.db.utils.ProgrammingError`:
either a database-driver error (psycopg's `UndefinedFunction` instance flag
and psycopg2's `pgcode` attribute) or absent (`__cause__ is None`). -/
structure DriverErr where
  is_undefined_function : Bool
  pgcode : Option String
deriving DecidableEq, Repr

/-- An error raised by the store while executing an aggregation. -/
inductive StoreErr where
  | programmingError (cause : Option DriverErr)
  | otherError (name : String)
deriving DecidableEq, Repr

/-- The outcome error of the `aggregation` helper: a FastAPI
`RequestValidationError` pinpointing a location, a store error re-raised
unchanged, or a Python `AttributeError` (from reading `.pgcode` on a `None`
cause in the psycopg2 import branch). -/
inductive AggErr where
  | requestValidation (loc : List String)
  | raised (e : StoreErr)
  | attributeError
deriving DecidableEq, Repr

/-- psycopg2's `errorcodes.UNDEFINED_FUNCTION`. -/
def UNDEFINED_FUNCTION : String := "42883"

/-- The store's behaviour for one aggregation request: the rows produced by
the grouped query (`.values(...).annotate(...)` materialised) and the single
row produced by the ungrouped `.aggregate(...)` call. -/
structure StoreRun (Row : Type) where
  grouped : Except StoreErr (List Row)
  scalar : Except StoreErr Row

/-- The body of the `try` block inside `aggregation.aggregate`: with a truthy
`group_by` run the grouped query and return its rows; otherwise run the
scalar `.aggregate` and wrap its result as a one-element list. -/
def aggregation_attempt {Row : Type} (store : StoreRun Row) (group_by : Option (List String)) :
    Except StoreErr (List Row) :=
  match group_by with
  | some (_ :: _) => store.grouped
  | _ =>
    match store.scalar with
    | .ok v => .ok [v]
    | .error e => .error e

/-- The `aggregation` helper of `utils/fastapi_django.py`.  `psycopg2_mode`
selects the import branch taken at module load: `true` when psycopg2 is
installed (`UNDEFINED_FUNCTION` set, `UndefinedFunction = None`), `false`
for the psycopg fallback (`UndefinedFunction` set, `UNDEFINED_FUNCTION =
None`).  A `ProgrammingError` whose cause is the undefined-function engine
error is reclassified as a `RequestValidationError` at
`('query', 'aggregation_function')`; in psycopg2 mode a `ProgrammingError`
with `__cause__ = None` hits `None.pgcode` and raises `AttributeError`;
every other error is re-raised. -/
def aggregation {Row : Type} (psycopg2_mode : Bool) (store : StoreRun Row)
    (group_by : Option (List String)) : Except AggErr (List Row) :=
  match aggregation_attempt store group_by with
  | .ok vs => .ok vs
  | .error e =>
    match e with
    | .programmingError cause =>
      if psycopg2_mode then
        match cause with
        | none => .error .attributeError
        | some c =>
          if c.pgcode = some UNDEFINED_FUNCTION then
            .error (.requestValidation ["query", "aggregation_function"])
          else .error (.raised e)
      else
        match cause with
        | some c =>
          if c.is_undefined_function then
            .error (.requestValidation ["query", "aggregation_function"])
          else .error (.raised e)
        | none => .error (.raised e)
    | .otherError n => .error (.raised (.otherError n))

/-- Whether a chained cause is the undefined-function engine error, as the
respective import branch detects it: by `pgcode` under psycopg2, by
`isinstance(..., UndefinedFunction)` under psycopg. -/
def causeIsUndefinedFunction (psycopg2_mode : Bool) : Option DriverErr → Bool
  | none => false
  | some c => if psycopg2_mode then c.pgcode == some UNDEFINED_FUNCTION else c.is_undefined_function

/-- The Django field classes `search_filter_fields`, `_get_field_variations`,
`model_fields` and `order_fields` dispatch on via `isinstance`.  A
`charField` carries whether it declares a fixed `choices` set. -/
inductive FieldKind where
  | foreignKey
  | manyToMany
  | manyToOneRel
  | manyToManyRel
  | charField (choices : Bool)
  | integerField
  | floatField
  | decimalField
  | dateField
  | dateTimeField
  | otherField
deriving DecidableEq, Repr, BEq

/-- A Python type expression as used for query-parameter annotations:
scalars, `constr(min_length=l, max_length=l)`, `List[...]`, `Optional[...]`. -/
inductive PyType where
  | str
  | int
  | float
  | decimal
  | date
  | datetime
  | boolT
  | constrStr (minLen maxLen : Option Nat)
  | listT (t : PyType)
  | optionalT (t : PyType)
  | otherT (n : String)
deriving DecidableEq, Repr, BEq

/-- The field metadata consulted by the router: `name`, class
(`kind`), `primary_key`, `null`, `max_length`, the related model's name for
relation fields, and the exposed API type.  `api_type` stands for the result
of the external `get_field_type` collaborator (djdantic), modelled from the
spec as data attached to the field. -/
structure DField where
  name : String
  kind : FieldKind
  primary_key : Bool
  null : Bool
  max_length : Option Nat
  related_model : Option String
  api_type : PyType
deriving DecidableEq, Repr, BEq

/-- A synthesized query parameter (`forge.kwarg(name, type=..., default=
Query(default=None, alias=...))`): its name, type annotation and alias. -/
structure FParam where
  name : String
  type : PyType
  aliasName : Option String
deriving DecidableEq, Repr, BEq

/-- `DjangoRouterSchema._get_field_variations`: the base `(name, type)` pair;
for datetime fields a `__date` truncation; for date/datetime fields the
date-part decompositions on every date-typed variation; for numeric fields
the `__sum`/`__avg`/`__min`/`__max` aggregate variants. -/
def get_field_variations (field : DField) (field_name : String) (field_type : PyType) :
    List (String × PyType) :=
  let variations : List (String × PyType) := [(field_name, field_type)]
  let variations :=
    if field.kind = .dateTimeField then variations ++ [(field_name ++ "__date", PyType.date)]
    else variations
  let variations :=
    if field.kind = .dateField ∨ field.kind = .dateTimeField then
      variations ++
        (variations.filter (fun v => v.2 == PyType.date || v.2 == PyType.optionalT PyType.date)).flatMap
          (fun v => [(v.1 ++ "__year", PyType.int), (v.1 ++ "__quarter", PyType.int),
                     (v.1 ++ "__month", PyType.int), (v.1 ++ "__day", PyType.int),
                     (v.1 ++ "__week", PyType.int), (v.1 ++ "__week_day", PyType.int)])
    else variations
  let variations :=
    if field.kind = .integerField ∨ field.kind = .floatField ∨ field.kind = .decimalField then
      variations ++
        [(field_name ++ "__sum", field_type),
         (field_name ++ "__avg", if field.kind = .integerField then PyType.float else field_type),
         (field_name ++ "__min", field_type),
         (field_name ++ "__max", field_type)]
    else variations
  variations

/-- The loop body of `DjangoRouterSchema.search_filter_fields` for one
introspected field (one `fields[field]` bucket, with the exact-match
parameter inserted at position 0 last): primary-key and `tenant_id` fields
are skipped; foreign keys and many-to-many fields are retyped to a list of
fixed-length identifiers and renamed `<name>__id__in` with alias
`<name>__id`, but a relation to the parent model and every many-to-many
field bail out with `continue` (empty bucket); nullable fields gain
`__isnull`; to-many relations are renamed `<name>__count`; date/numeric
fields and to-many counts gain `__gte`/`__lte` range variants; choice text
fields become `<name>__in` list parameters; free text fields gain
`__icontains`.  The `assert` on missing type annotations and the purely
documentational `Query` options (the soft-delete `description` text and the
`max_length` constraint on `__icontains`) are not modelled. -/
def search_filter_field_params (parentModel : Option String) (mname : String) (field : DField) :
    List FParam :=
  if field.primary_key = true ∨ field.name = "tenant_id" then []
  else
    let field_type := field.api_type
    let field_name := mname
    let field_type :=
      if field.kind = .foreignKey ∨ field.kind = .manyToMany then
        PyType.listT (PyType.constrStr field.max_length field.max_length)
      else field_type
    let aliasOpt :=
      if field.kind = .foreignKey ∨ field.kind = .manyToMany then some (field_name ++ "__id")
      else none
    let field_name :=
      if field.kind = .foreignKey ∨ field.kind = .manyToMany then field_name ++ "__id__in"
      else field_name
    if (field.kind = .foreignKey ∨ field.kind = .manyToMany) ∧ parentModel.isSome = true ∧
        field.related_model = parentModel then []
    else if field.kind = .manyToMany then []
    else
      let isnullParams : List FParam :=
        if field.null then
          [{ name := (aliasOpt.getD field_name) ++ "__isnull",
             type := PyType.optionalT PyType.boolT, aliasName := none }]
        else []
      let field_name :=
        if field.kind = .manyToOneRel ∨ field.kind = .manyToManyRel then field_name ++ "__count"
        else field_name
      let rangeParams : List FParam :=
        if field.kind = .dateField ∨ field.kind = .dateTimeField ∨
            field.kind = .integerField ∨ field.kind = .floatField ∨
            field.kind = .decimalField ∨ field.kind = .manyToOneRel ∨
            field.kind = .manyToManyRel then
          (get_field_variations field field_name field_type).flatMap (fun v =>
            [{ name := v.1 ++ "__gte", type := PyType.optionalT v.2, aliasName := none },
             { name := v.1 ++ "__lte", type := PyType.optionalT v.2, aliasName := none }])
        else []
      let (field_name, field_type, aliasOpt, charParams) :=
        match field.kind with
        | .charField true =>
          (field_name ++ "__in", PyType.listT field_type, some field_name, ([] : List FParam))
        | .charField false =>
          (field_name, field_type, aliasOpt,
           [{ name := field_name ++ "__icontains", type := PyType.optionalT field_type,
              aliasName := none }])
        | _ => (field_name, field_type, aliasOpt, ([] : List FParam))
      { name := field_name, type := PyType.optionalT field_type, aliasName := aliasOpt } ::
        (isnullParams ++ rangeParams ++ charParams)

/-- `DjangoRouterSchema.search_filter_fields`: the per-field buckets of the
`fields` defaultdict, flattened in iteration order. -/
def search_filter_fields (parentModel : Option String) (mfields : List (String × DField)) :
    List FParam :=
  (mfields.map (fun nf => search_filter_field_params parentModel nf.1 nf.2)).flatten

/-- A Django model: its class name and declared fields
(`_meta.get_fields(include_parents=False)` in declaration order). -/
structure DModel where
  name : String
  fields : List DField
deriving DecidableEq, Repr, BEq

/-- Resolution of a related model class by name within the app registry. -/
def lookupModel (registry : List DModel) (n : String) : Option DModel :=
  registry.find? (fun m => m.name == n)

/-- The relation classes `_get_model_fields` recurses through. -/
def isRelFieldKind (k : FieldKind) : Bool :=
  k == .foreignKey || k == .manyToMany || k == .manyToOneRel || k == .manyToManyRel

/-- The generator `_get_model_fields` inside
`DjangoRouterSchema.model_fields`: yield every field under
`prefix + field.name`, and recurse into relation targets with prefix
`name + "__"` unless the target is the parent descriptor's model, the
current model itself, or a model already on the recursion path.  The fuel
argument bounds the recursion depth; the wrapper passes `registry.length +
1`, which the visited-models guard never exceeds. -/
def get_model_fields (registry : List DModel) (parentModel : Option String) :
    Nat → DModel → String → List String → List (String × DField)
  | 0, _, _, _ => []
  | fuel + 1, model, pfx, recursion_tree =>
    model.fields.flatMap (fun field =>
      let entry := [(pfx ++ field.name, field)]
      if isRelFieldKind field.kind then
        if parentModel.isSome && field.related_model == parentModel then entry
        else if field.related_model == some model.name then entry
        else if (field.related_model.map (fun rm => recursion_tree.contains rm)).getD false then
          entry
        else
          match field.related_model.bind (lookupModel registry) with
          | some rel =>
            entry ++ get_model_fields registry parentModel fuel rel (pfx ++ field.name ++ "__")
              (recursion_tree ++ [model.name])
          | none => entry
      else entry)

/-- Python dict construction `{field: ref for field, ref in ...}`: a repeated
key keeps its first position but takes the last value. -/
def dictDedup (l : List (String × DField)) : List (String × DField) :=
  l.foldl
    (fun acc kv =>
      if acc.any (fun p => p.1 == kv.1) then
        acc.map (fun p => if p.1 == kv.1 then (p.1, kv.2) else p)
      else acc ++ [kv])
    []

/-- Python `Enum` member iteration: a member whose value equals an earlier
member's value is an alias and is skipped. -/
def enumDedup (l : List (String × DField)) : List (String × DField) :=
  l.foldl (fun acc kv => if acc.any (fun p => p.2 == kv.2) then acc else acc ++ [kv]) []

/-- `DjangoRouterSchema.model_fields`: the `Enum` built over the generated
name-to-field mapping, as the list of its members in iteration order. -/
def model_fields (registry : List DModel) (parentModel : Option String) (model : DModel) :
    List (String × DField) :=
  enumDedup (dictDedup (get_model_fields registry parentModel (registry.length + 1) model "" []))

/-- `DjangoRouterSchema.order_fields`: every introspected field name and its
descending variant, with to-many relations renamed `<name>__count`. -/
def order_fields (mfields : List (String × DField)) : List String :=
  mfields.flatMap (fun nf =>
    let name := if nf.2.kind = .manyToManyRel ∨ nf.2.kind = .manyToOneRel then nf.1 ++ "__count"
      else nf.1
    [name, "-" ++ name])

/-- The djdantic transfer modes (`TransferAction`). -/
inductive TransferAction where
  | create
  | sync
  | no_subobjects
deriving DecidableEq, Repr

/-- A validated input payload: the declared (scalar) fields with their bound
values (`none` models a JSON null / unset optional), and the set of fields
the caller explicitly set (pydantic `__fields_set__`). -/
structure Payload where
  fields : List (String × Option String)
  setFields : List String
deriving DecidableEq, Repr

/-- A persisted record as a mapping from column name to value. -/
structure ORecord where
  fields : List (String × Option String)
deriving DecidableEq, Repr

/-- Modelled from the spec: the external ORM-transfer collaborator
`transfer_to_orm(payload, target_record, mode, exclude_unset, access)`
mutates `target_record` in place from `payload`: each declared payload field
is written onto the record, except that with `exclude_unset` a field the
caller did not explicitly set is left untouched.  Sub-object
synchronisation (the difference between `SYNC` and `NO_SUBOBJECTS` beyond
the `exclude_unset` flag) is outside the scalar-field model. -/
def transfer_to_orm (data : Payload) (inst : ORecord) (_action : TransferAction)
    (exclude_unset : Bool) (_access : Option Access) : ORecord :=
  { fields := inst.fields.map (fun kv =>
      match data.fields.lookup kv.1 with
      | some pv => if exclude_unset && !(data.setFields.contains kv.1) then kv else (kv.1, pv)
      | none => kv) }

/-- `DjangoRouterSchema.object_update`: one `transfer_to_orm` call with
`exclude_unset = (transfer_action == TransferAction.NO_SUBOBJECTS)`. -/
def object_update (access : Option Access) (inst : ORecord) (data : Payload)
    (transfer_action : TransferAction) : ORecord :=
  transfer_to_orm data inst transfer_action (transfer_action == TransferAction.no_subobjects)
    access

/-- The update step of `DjangoRouterSchema.endpoint_patch`: partial update via
`TransferAction.NO_SUBOBJECTS`. -/
def endpoint_patch_update (access : Option Access) (inst : ORecord) (data : Payload) :
    ORecord :=
  object_update access inst data TransferAction.no_subobjects

/-- The update step of `DjangoRouterSchema.endpoint_put`: full replace via
`TransferAction.SYNC`. -/
def endpoint_put_update (access : Option Access) (inst : ORecord) (data : Payload) :
    ORecord :=
  object_update access inst data TransferAction.sync

/-- A freshly created model instance: the tenant column (if stamped), the
parent-id column (if stamped) and the record after the `CREATE` transfer. -/
structure Instance where
  tenant_id : Option String
  parent_field_value : Option String
  row : ORecord
deriving DecidableEq, Repr

/-- The structured `ValidationError` raised by `object_create`. -/
inductive CreateErr where
  | validationError (code : String)
deriving DecidableEq, Repr

/-- `DjangoRouterSchema.object_create`: a non-list payload is wrapped in a
list; a list payload is rejected with error code `create_multi_disabled`
unless `create_multi` is set.  Each element allocates a fresh instance,
stamps `tenant_id` from the access context when the model has a tenant
column and `access` is truthy, stamps the parent id when truthy, then
transfers the payload with `TransferAction.CREATE`. -/
def object_create (hasTenant : Bool) (create_multi : Bool) (declared : List String)
    (access : Option Access) (data : Payload ⊕ List Payload) (parent_id : Option String) :
    Except CreateErr (List Instance) :=
  let items : Option (List Payload) :=
    match data with
    | .inl el => some [el]
    | .inr els => if create_multi then some els else none
  match items with
  | none => .error (.validationError "create_multi_disabled")
  | some els => .ok (els.map (fun el =>
      let base : ORecord := { fields := declared.map (fun f => (f, none)) }
      let t : Option String :=
        match access with
        | some a => if hasTenant then some a.tenant_id else none
        | none => none
      let pf : Option String :=
        match parent_id with
        | some p => if p ≠ "" then some p else none
        | none => none
      { tenant_id := t, parent_field_value := pf,
        row := transfer_to_orm el base TransferAction.create false access }))

/-- The descriptor attributes consulted during construction and route
registration: the `create_multi` capability, whether a
`register_router` directive is present, and which per-operation
schemas/capabilities are declared (each `has_*` is the truthiness-and-not-
`Undefined` check guarding the corresponding `_create_route_*` call;
`has_aggregate` is `aggregate_fields is not Undefined`). -/
structure RouterSchemaData where
  name : String
  create_multi : Bool
  register_router : Bool
  has_list : Bool
  has_aggregate : Bool
  has_create : Bool
  has_get : Bool
  get_endpoint : Bool
  has_update : Bool
  has_delete : Bool
deriving DecidableEq, Repr

/-- A registered route: HTTP method and path template. -/
structure Route where
  method : String
  path : String
deriving DecidableEq, Repr

/-- `DjangoRouterSchema._create_router`: the routes registered, in the fixed
order list, aggregate, create, read, update (partial then full), delete.
`id_ph` is the resource's `id_field_placeholder` path segment. -/
def create_router (s : RouterSchemaData) (id_ph : String) : List Route :=
  (if s.has_list then [{ method := "GET", path := "" }] else []) ++
  (if s.has_aggregate then
    [{ method := "GET", path := "/aggregate/\x7baggregation_function\x7d/\x7bfield\x7d" }]
   else []) ++
  (if s.has_create then [{ method := "POST", path := "" }] else []) ++
  (if s.has_get && s.get_endpoint then [{ method := "GET", path := id_ph }] else []) ++
  (if s.has_update then
    [{ method := "PATCH", path := id_ph }, { method := "PUT", path := id_ph }]
   else []) ++
  (if s.has_delete then [{ method := "DELETE", path := id_ph }] else [])

/-- The fatal construction error of `DjangoRouterSchema.__init__`. -/
inductive InitErr where
  | notImplementedError (msg : String)
deriving DecidableEq, Repr

/-- `DjangoRouterSchema.__init__`: after the base initialiser, a descriptor
with `create_multi` raises `NotImplementedError` before any router is built;
otherwise, with a `register_router` directive the router (and its routes)
is created and registered eagerly, else construction succeeds with no
routes built yet. -/
def schema_init (s : RouterSchemaData) (id_ph : String) :
    Except InitErr (Option (List Route)) :=
  if s.create_multi then
    .error (.notImplementedError "create_multi is not supported for DjangoRouterSchema")
  else if s.register_router then .ok (some (create_router s id_ph))
  else .ok none

/-- Python `str.lower`. -/
def strLower (s : String) : String := ⟨s.data.map Char.toLower⟩

/-- Python `str.removeprefix`: drop the prefix when present, else return the
string unchanged. -/
def removePrefixPy (s p : String) : String :=
  if p.data.isPrefixOf s.data then ⟨s.data.drop p.data.length⟩ else s

/-- `DjangoRouterSchema.name_singular`: the lowercased model class name. -/
def name_singular (modelName : String) : String := strLower modelName

/-- `DjangoRouterSchema.id_field`: `name_singular`, with the parent's
`name_singular` stripped off the front when the descriptor has a parent,
suffixed with `_id`. -/
def id_field (modelName : String) (parentModelName : Option String) : String :=
  let name := name_singular modelName
  let name :=
    match parentModelName with
    | some pm => removePrefixPy name (name_singular pm)
    | none => name
  name ++ "_id"

/-- `DjangoRouterSchema.id_field_placeholder`: the path segment
`/{<id_field>}`. -/
def id_field_placeholder (modelName : String) (parentModelName : Option String) : String :=
  "/\x7b" ++ id_field modelName parentModelName ++ "\x7d"

/-- Spec-side description of the exact-match parameter's name for one
introspected field, as the amended claim C5 states it. -/
def exact_param_name (mname : String) (field : DField) : String :=
  match field.kind with
  | .foreignKey => mname ++ "__id__in"
  | .manyToOneRel => mname ++ "__count"
  | .manyToManyRel => mname ++ "__count"
  | .charField true => mname ++ "__in"
  | _ => mname

/-- Spec-side description of the exact-match parameter's alias. -/
def exact_param_alias (mname : String) (field : DField) : Option String :=
  match field.kind with
  | .foreignKey => some (mname ++ "__id")
  | .charField true => some mname
  | _ => none

/-- Spec-side description of the exact-match parameter's inner type (the
parameter itself is `Optional[...]` of this). -/
def exact_param_type (field : DField) : PyType :=
  match field.kind with
  | .foreignKey => PyType.listT (PyType.constrStr field.max_length field.max_length)
  | .charField true => PyType.listT field.api_type
  | _ => field.api_type

/-- Sample access context for tenant `t1`. -/
def acc1 : Access := { tenant_id := "t1" }

/-- Sample record owned by tenant `t1`. -/
def rec1 : Record := { id := "r1", tenant_id := some "t1", parent_id := none, status := none }

/-- Sample record owned by tenant `t2`. -/
def rec2 : Record := { id := "r2", tenant_id := some "t2", parent_id := none, status := none }

/-- Sample tenant-scoped resource level holding one record per tenant. -/
def lvl1 : Level := { hasTenantId := true, records := [rec1, rec2] }

/-- Sample bound query parameters with the status filter unset. -/
def kwargsUnset : List (String × Option Val) :=
  [("status__in", none), ("number__gte", some (.iv 3))]

/-- Sample bound query parameters with the status filter set to the
soft-deleted value. -/
def kwargsSet : List (String × Option Val) :=
  [("status__in", some (.listv ["void"])), ("number__gte", none)]

/-- Sample per-operation scopes of a parent resource. -/
def scopesOrg : SecurityScopes :=
  { get := ["o.read"], get_list := ["o.read"], get_aggregate := ["o.read"],
    post := ["o.create"], put := ["o.update"], patch := ["o.update"], delete := ["o.delete"] }

/-- Sample parent descriptor with explicit scopes and a security scheme. -/
def parentNode : SecNode := { security_scopes := some scopesOrg, security := true }

/-- Sample child descriptor without scopes of its own. -/
def childNode : SecNode := { security_scopes := none, security := false }

/-- Sample store run whose execution raises `ProgrammingError` with no
chained engine cause. -/
def store_pg_nocause : StoreRun Unit :=
  { grouped := .error (.programmingError none), scalar := .error (.programmingError none) }

/-- Sample store run whose execution raises `ProgrammingError` caused by the
undefined-function engine error. -/
def store_pg_uf : StoreRun Unit :=
  { grouped := .error (.programmingError (some ⟨true, some "42883"⟩)),
    scalar := .error (.programmingError (some ⟨true, some "42883"⟩)) }

/-- Sample many-to-many field (a `tags` relation). -/
def tagsField : DField :=
  { name := "tags", kind := .manyToMany, primary_key := false, null := false,
    max_length := some 64, related_model := some "Tag", api_type := PyType.str }

/-- Sample foreign-key field (an `author` relation). -/
def authorField : DField :=
  { name := "author", kind := .foreignKey, primary_key := false, null := true,
    max_length := some 64, related_model := some "Author", api_type := PyType.str }

/-- Sample primary-key field of model `A`. -/
def fieldIdA : DField :=
  { name := "id", kind := .charField false, primary_key := true, null := false,
    max_length := some 64, related_model := none, api_type := PyType.str }

/-- Sample reverse one-to-many relation (`children`) from model `A` to `B`. -/
def fieldChildren : DField :=
  { name := "children", kind := .manyToOneRel, primary_key := false, null := false,
    max_length := none, related_model := some "B", api_type := PyType.otherT "rel" }

/-- Sample primary-key field of model `B`. -/
def fieldIdB : DField :=
  { name := "id", kind := .charField false, primary_key := true, null := false,
    max_length := some 32, related_model := none, api_type := PyType.str }

/-- Sample text field of model `B`. -/
def fieldTitleB : DField :=
  { name := "title", kind := .charField false, primary_key := false, null := false,
    max_length := some 100, related_model := none, api_type := PyType.str }

/-- Sample model `A` with a reverse to-many relation to `B`. -/
def modelA : DModel := { name := "A", fields := [fieldIdA, fieldChildren] }

/-- Sample model `B`. -/
def modelB : DModel := { name := "B", fields := [fieldIdB, fieldTitleB] }

/-- Sample app registry containing `A` and `B`. -/
def regAB : List DModel := [modelA, modelB]

/-- Sample persisted record with two columns set. -/
def instAB : ORecord := { fields := [("colA", some "1"), ("colB", some "2")] }

/-- Sample payload that explicitly sets only `colA` (so `colB` is declared
but unset, i.e. omitted from the request body). -/
def payloadA : Payload := { fields := [("colA", some "9"), ("colB", none)], setFields := ["colA"] }

/-- Sample descriptor data with the bulk-create capability enabled. -/
def schemaMulti : RouterSchemaData :=
  { name := "x", create_multi := true, register_router := true, has_list := true,
    has_aggregate := true, has_create := true, has_get := true, get_endpoint := true,
    has_update := true, has_delete := true }

/-- The single instance produced by `object_create` for `payloadA` with no
access context on a tenant-scoped model with one declared column. -/
def instC9 : Instance :=
  { tenant_id := none, parent_field_value := none, row := { fields := [("colC", none)] } }

theorem mem_of_head?_eq {α : Type} {l : List α} {a : α} (h : l.head? = some a) : a ∈ l := by
  cases l with
  | nil => simp at h
  | cons x xs => simp at h; simp [h]

theorem objects_filter_tenant (a : Access) {f : Record → Bool}
    (hf : objects_filter true (some a) = .ok f) {r : Record} (hfr : f r = true) :
    r.tenant_id = some a.tenant_id := by
  simp only [objects_filter] at hf
  simp only [if_true, Except.ok.injEq] at hf
  rw [← hf] at hfr
  simpa using hfr

theorem qs_get_ok {l : List Record} {pid : String} {r : Record} (h : qs_get l pid = .ok r) :
    r ∈ l ∧ r.id = pid := by
  unfold qs_get at h
  cases hfil : l.filter (fun x => x.id == pid) with
  | nil => rw [hfil] at h; simp at h
  | cons x xs =>
    cases xs with
    | nil =>
      rw [hfil] at h
      simp only [Except.ok.injEq] at h
      have hx : x ∈ l.filter (fun y => y.id == pid) := by rw [hfil]; simp
      rw [← h]
      exact ⟨List.filter_subset' l hx, by simpa using (List.mem_filter.mp hx).2⟩
    | cons y ys => rw [hfil] at h; simp at h

theorem mem_get_queryset {self : Level} {anc : List Level} {pids : List String} {a : Access}
    {l : List Record} (h : get_queryset self anc pids (some a) = .ok l) {r : Record}
    (hr : r ∈ l) :
    (self.hasTenantId = true → r.tenant_id = some a.tenant_id) ∧
    (anc ≠ [] → ∃ pid, pids.getLast? = some pid ∧ r.parent_id = some pid) := by
  cases anc with
  | nil =>
    simp only [get_queryset] at h
    cases hof : objects_filter self.hasTenantId (some a) with
    | error e => rw [hof] at h; simp at h
    | ok f =>
      rw [hof] at h
      simp only [Except.ok.injEq] at h
      subst h
      refine ⟨fun ht => ?_, fun hc => absurd rfl hc⟩
      rw [ht] at hof
      exact objects_filter_tenant a hof (List.mem_filter.mp hr).2
  | cons p rest =>
    simp only [get_queryset] at h
    split at h
    next e he => simp at h
    next parentList hq =>
      split at h
      next hnone => simp at h
      next pid hlast =>
        split at h
        next e2 hg => simp at h
        next parent hg =>
          split at h
          next e3 hof => simp at h
          next f hof =>
            simp only [Except.ok.injEq] at h
            subst h
            have hr1 := List.mem_filter.mp hr
            have hr2 := List.mem_filter.mp hr1.1
            refine ⟨fun ht => ?_, fun _ => ⟨pid, hlast, ?_⟩⟩
            · rw [ht] at hof
              exact objects_filter_tenant a hof hr1.2
            · have hpid : parent.id = pid := (qs_get_ok hg).2
              have hpm := hr2.2
              rw [hpid] at hpm
              simpa using hpm

theorem mem_get_queryset_parent {self p : Level} {rest : List Level} {pids : List String}
    {a : Access} {l : List Record}
    (h : get_queryset self (p :: rest) pids (some a) = .ok l) {r : Record} (hr : r ∈ l) :
    ∃ pl parent, get_queryset p rest pids.dropLast (some a) = .ok pl ∧ parent ∈ pl ∧
      pids.getLast? = some parent.id ∧ r.parent_id = some parent.id := by
  simp only [get_queryset] at h
  split at h
  next e he => simp at h
  next parentList hq =>
    split at h
    next hnone => simp at h
    next pid hlast =>
      split at h
      next e2 hg => simp at h
      next parent hg =>
        split at h
        next e3 hof => simp at h
        next f hof =>
          simp only [Except.ok.injEq] at h
          subst h
          obtain ⟨hpmem, hpid⟩ := qs_get_ok hg
          have hr2 := List.mem_filter.mp (List.mem_filter.mp hr).1
          refine ⟨parentList, parent, hq, hpmem, ?_, by simpa using hr2.2⟩
          rw [hpid]
          exact hlast

theorem get_queryset_none_ne_ok (self : Level) (anc : List Level) (pids : List String)
    (ht : self.hasTenantId = true) (l : List Record) :
    get_queryset self anc pids none ≠ .ok l := by
  intro h
  cases anc with
  | nil => simp [get_queryset, ht, objects_filter] at h
  | cons p rest =>
    simp only [get_queryset] at h
    split at h
    next e he => simp at h
    next parentList hq =>
      split at h
      next hnone => simp at h
      next pid hlast =>
        split at h
        next e2 hg => simp at h
        next parent hg =>
          rw [ht] at h
          simp [objects_filter] at h

/-- C1: for a tenant-scoped model, every record resolved by the list, read,
update and delete paths (all of which go through `get_queryset`,
`object_get_by_id` or `objects_get_filtered`) carries the access context's
tenant identity, and when the resource is nested it carries the last path
parent id and its parent record is itself a member of the parent's
recursively scoped queryset (so the full parent-id chain is enforced level
by level); a record of another tenant or another parent is never returned
(a non-matching id resolves as `DoesNotExist`, i.e. not-found). -/
theorem tenant_parent_scoping (self : Level) (anc : List Level) (pids : List String) (a : Access) :
    (∀ l, get_queryset self anc pids (some a) = .ok l → ∀ r ∈ l,
      (self.hasTenantId = true → r.tenant_id = some a.tenant_id) ∧
      (anc ≠ [] → ∃ pid, pids.getLast? = some pid ∧ r.parent_id = some pid)) ∧
    (∀ i r, object_get_by_id self anc i pids (some a) = .ok r →
      r.id = i ∧
      ((self.hasTenantId = true → r.tenant_id = some a.tenant_id) ∧
       (anc ≠ [] → ∃ pid, pids.getLast? = some pid ∧ r.parent_id = some pid))) ∧
    (∀ search pag l, objects_get_filtered self anc pids (some a) search pag = .ok l → ∀ r ∈ l,
      (self.hasTenantId = true → r.tenant_id = some a.tenant_id) ∧
      (anc ≠ [] → ∃ pid, pids.getLast? = some pid ∧ r.parent_id = some pid)) ∧
    (∀ p rest l, anc = p :: rest → get_queryset self anc pids (some a) = .ok l → ∀ r ∈ l,
      ∃ pl parent, get_queryset p rest pids.dropLast (some a) = .ok pl ∧ parent ∈ pl ∧
        pids.getLast? = some parent.id ∧ r.parent_id = some parent.id) := by
  refine ⟨fun l h r hr => mem_get_queryset h hr, fun i r h => ?_, fun search pag l h r hr => ?_,
    fun p rest l hanc h r hr => by subst hanc; exact mem_get_queryset_parent h hr⟩
  · unfold object_get_by_id at h
    cases hq : get_queryset self anc pids (some a) with
    | error e => rw [hq] at h; simp at h
    | ok ql =>
      rw [hq] at h
      obtain ⟨hmem, hid⟩ := qs_get_ok h
      exact ⟨hid, mem_get_queryset hq hmem⟩
  · unfold objects_get_filtered at h
    cases hq : get_queryset self anc pids (some a) with
    | error e => rw [hq] at h; simp at h
    | ok ql =>
      rw [hq] at h
      simp only [Except.ok.injEq] at h
      subst h
      have hr1 : r ∈ ql.filter search := by
        unfold Pagination.query at hr
        cases hlim : pag.limit with
        | none => rw [hlim] at hr; exact List.drop_subset _ _ hr
        | some n => rw [hlim] at hr; exact List.drop_subset _ _ (List.take_subset _ _ hr)
      exact mem_get_queryset hq (List.filter_subset' ql hr1)

theorem tenant_parent_scoping_witness :
    get_queryset lvl1 [] [] (some acc1) = .ok [rec1] ∧
    rec1.tenant_id = some acc1.tenant_id := by
  refine ⟨rfl, ?_⟩
  exact (((tenant_parent_scoping lvl1 [] [] acc1).1 [rec1] rfl rec1 (by simp)).1) rfl

/-- C9: with a model carrying `tenant_id` and `access = None`, building the
security filter (and hence any queryset) fails with `AttributeError` instead
of returning unscoped records, while `object_create` with `access = None`
silently returns instances whose tenant column was never stamped. -/
theorem none_access_query_fails_create_unstamped (self : Level) (anc : List Level)
    (pids : List String) (declared : List String) (d : Payload) (pid : Option String) (cm : Bool)
    (ht : self.hasTenantId = true) :
    objects_filter self.hasTenantId none = .error .attributeError ∧
    (∀ l, get_queryset self anc pids none ≠ .ok l) ∧
    (∀ insts, object_create self.hasTenantId cm declared none (.inl d) pid = .ok insts →
      ∀ inst ∈ insts, inst.tenant_id = none) := by
  refine ⟨by rw [ht]; rfl, fun l => get_queryset_none_ne_ok self anc pids ht l, ?_⟩
  intro insts h inst hi
  simp [object_create] at h
  subst h
  simp at hi
  subst hi
  rfl

theorem none_access_query_fails_create_unstamped_witness :
    objects_filter lvl1.hasTenantId none = .error .attributeError ∧
    get_queryset lvl1 [] [] none ≠ .ok [] ∧
    instC9.tenant_id = none := by
  have h := none_access_query_fails_create_unstamped lvl1 [] [] ["colC"] payloadA none false rfl
  exact ⟨h.1, h.2.1 [], h.2.2 [instC9] rfl instC9 (by simp)⟩

/-- C2: with a `delete_status` configured, omitting the status filter (the
`status__in` parameter bound but `None`) compiles the predicate as the
conjunction of the non-`None` parameters and the negation of
`status = delete_status`, so a record at the soft-deleted status never
matches; passing `status__in` explicitly compiles no exclusion conjunct. -/
theorem soft_delete_default_exclusion (d : Val) (kwargs : List (String × Option Val)) :
    (kwargs.lookup "status__in" = some none →
      search_filter (some d) kwargs =
        QExpr.qand (QExpr.base (remove_none kwargs))
          (QExpr.qnot (QExpr.base [("status", d)])) ∧
      ∀ get : String → Option Val, get "status" = some d →
        (search_filter (some d) kwargs).matches get = false) ∧
    (∀ v, kwargs.lookup "status__in" = some (some v) →
      search_filter (some d) kwargs = QExpr.base (remove_none kwargs)) := by
  constructor
  · intro hun
    have hs : search_filter (some d) kwargs =
        QExpr.qand (QExpr.base (remove_none kwargs))
          (QExpr.qnot (QExpr.base [("status", d)])) := by
      simp [search_filter, hun]
    refine ⟨hs, fun get hget => ?_⟩
    rw [hs]
    have hb : (QExpr.base [("status", d)]).matches get = true := by
      show (List.all [("status", d)] (fun kv => evalLookup get kv.1 kv.2)) = true
      simp only [List.all_cons, List.all_nil, Bool.and_true]
      unfold evalLookup
      rw [if_neg (by decide)]
      rw [hget]
      simp
    show ((QExpr.base (remove_none kwargs)).matches get &&
        !((QExpr.base [("status", d)]).matches get)) = false
    rw [hb]
    simp
  · intro v hv
    simp [search_filter, hv]

theorem soft_delete_default_exclusion_witness :
    search_filter (some (.s "void")) kwargsUnset =
      QExpr.qand (QExpr.base [("number__gte", .iv 3)])
        (QExpr.qnot (QExpr.base [("status", .s "void")])) ∧
    search_filter (some (.s "void")) kwargsSet =
      QExpr.base [("status__in", .listv ["void"])] := by
  constructor
  · have h := ((soft_delete_default_exclusion (.s "void") kwargsUnset).1 (by decide)).1
    rw [h]
    decide
  · have h := (soft_delete_default_exclusion (.s "void") kwargsSet).2 (.listv ["void"])
      (by decide)
    rw [h]
    decide

/-- C3: an explicit non-empty per-operation scope list wins; otherwise the
resolution is the ancestor chain's, with POST/PUT/PATCH/DELETE remapped to
the PATCH bucket; and when no scope resolves anywhere in the chain, the
synthesized signature carries no `access` parameter. -/
theorem security_scope_resolution (s : SecNode) (anc : List SecNode) (m : Method) :
    (∀ sc, s.security_scopes = some sc → sc.forMethod m ≠ [] →
      get_security_scopes (s :: anc) m = some (sc.forMethod m)) ∧
    ((s.security_scopes = none ∨
        ∃ sc, s.security_scopes = some sc ∧ sc.forMethod m = []) →
      get_security_scopes (s :: anc) m =
        get_security_scopes anc
          (if m = .post ∨ m = .put ∨ m = .patch ∨ m = .delete then .patch else m)) ∧
    (get_security_scopes (s :: anc) m = none → security_signature (s :: anc) m = []) := by
  refine ⟨fun sc hsc hne => ?_, fun hfall => ?_, fun hnone => ?_⟩
  · simp [get_security_scopes, hsc, hne]
  · rcases hfall with hn | ⟨sc, hsc, hemp⟩
    · simp [get_security_scopes, hn]
    · simp [get_security_scopes, hsc, hemp]
  · unfold security_signature
    have hsec : (get_security (s :: anc) m).1 = false := by
      unfold get_security
      rw [hnone]
    simp [hsec]

theorem security_scope_resolution_witness :
    get_security_scopes [childNode, parentNode] .post = some ["o.update"] ∧
    security_signature [childNode] .get = [] := by
  constructor
  · have h := (security_scope_resolution childNode [parentNode] .post).2.1 (Or.inl rfl)
    rw [h]
    decide
  · exact (security_scope_resolution childNode [] .get).2.2 (by decide)

/-- C4 counterexample: with psycopg2 installed (the first import branch), a
store `ProgrammingError` whose `__cause__` is `None` does not propagate
unchanged — evaluating `error.__cause__.pgcode` raises `AttributeError`
instead of re-raising the original store error. -/
theorem aggregation_error_counterexample :
    aggregation true store_pg_nocause none = .error .attributeError ∧
    AggErr.attributeError ≠ AggErr.raised (StoreErr.programmingError none) := by
  exact ⟨rfl, by decide⟩

/-- C4 (amended): successful results pass through; a `ProgrammingError` whose
cause is the undefined-function engine error (for the active driver branch)
is reclassified as a request-validation error pinpointing
`('query', 'aggregation_function')`, and only that case is; every other
store error propagates unchanged, except that in psycopg2 mode a
`ProgrammingError` without a driver cause surfaces as `AttributeError`. -/
theorem aggregation_error_translation {Row : Type} (mode : Bool) (store : StoreRun Row)
    (gb : Option (List String)) :
    (∀ vs, aggregation_attempt store gb = .ok vs → aggregation mode store gb = .ok vs) ∧
    (∀ cause, aggregation_attempt store gb = .error (.programmingError cause) →
      causeIsUndefinedFunction mode cause = true →
      aggregation mode store gb =
        .error (.requestValidation ["query", "aggregation_function"])) ∧
    (∀ e, aggregation_attempt store gb = .error e →
      (∀ cause, e = .programmingError cause → causeIsUndefinedFunction mode cause = false) →
      ¬(mode = true ∧ e = .programmingError none) →
      aggregation mode store gb = .error (.raised e)) ∧
    (aggregation mode store gb = .error (.requestValidation ["query", "aggregation_function"]) →
      ∃ cause, aggregation_attempt store gb = .error (.programmingError cause) ∧
        causeIsUndefinedFunction mode cause = true) := by
  refine ⟨fun vs hok => ?_, fun cause herr huf => ?_, fun e herr hnuf hna => ?_, fun hrv => ?_⟩
  · simp [aggregation, hok]
  · cases cause with
    | none => simp [causeIsUndefinedFunction] at huf
    | some c =>
      cases mode with
      | true =>
        have hpg : c.pgcode = some UNDEFINED_FUNCTION := by
          simpa [causeIsUndefinedFunction] using huf
        simp [aggregation, herr, hpg]
      | false =>
        have hc : c.is_undefined_function = true := by
          simpa [causeIsUndefinedFunction] using huf
        simp [aggregation, herr, hc]
  · cases e with
    | otherError n => simp [aggregation, herr]
    | programmingError cause =>
      have hcf := hnuf cause rfl
      cases cause with
      | none =>
        cases mode with
        | true => exact absurd ⟨rfl, rfl⟩ hna
        | false => simp [aggregation, herr]
      | some c =>
        cases mode with
        | true =>
          have hpg : (c.pgcode == some UNDEFINED_FUNCTION) = false := by
            simpa [causeIsUndefinedFunction] using hcf
          have hpg2 : ¬ c.pgcode = some UNDEFINED_FUNCTION := by
            simpa using hpg
          simp [aggregation, herr, hpg2]
        | false =>
          have hc : c.is_undefined_function = false := by
            simpa [causeIsUndefinedFunction] using hcf
          simp [aggregation, herr, hc]
  · unfold aggregation at hrv
    cases hat : aggregation_attempt store gb with
    | ok vs => rw [hat] at hrv; simp at hrv
    | error e =>
      rw [hat] at hrv
      cases e with
      | otherError n => simp at hrv
      | programmingError cause =>
        refine ⟨cause, rfl, ?_⟩
        cases cause with
        | none =>
          cases mode with
          | true => simp at hrv
          | false => simp at hrv
        | some c =>
          cases mode with
          | true =>
            by_cases hpg : c.pgcode = some UNDEFINED_FUNCTION
            · simp [causeIsUndefinedFunction, hpg]
            · simp [hpg] at hrv
          | false =>
            by_cases hc : c.is_undefined_function = true
            · simp [causeIsUndefinedFunction, hc]
            · simp [hc] at hrv

theorem aggregation_error_translation_witness :
    aggregation false store_pg_uf none =
      .error (.requestValidation ["query", "aggregation_function"]) :=
  (aggregation_error_translation false store_pg_uf none).2.1
    (some ⟨true, some "42883"⟩) rfl (by decide)

theorem search_filter_field_params_head (parentModel : Option String) (mname : String)
    (field : DField) (hpk : field.primary_key = false) (hten : field.name ≠ "tenant_id")
    (hm2m : field.kind ≠ .manyToMany)
    (hpar : field.kind = .foreignKey →
      ¬(parentModel.isSome = true ∧ field.related_model = parentModel)) :
    (search_filter_field_params parentModel mname field).head? =
      some { name := exact_param_name mname field,
             type := PyType.optionalT (exact_param_type field),
             aliasName := exact_param_alias mname field } := by
  cases hk : field.kind with
  | foreignKey =>
    have hp := hpar hk
    simp [search_filter_field_params, exact_param_name, exact_param_alias, exact_param_type,
      hpk, hten, hk, hp]
  | manyToMany => exact absurd hk hm2m
  | charField choices =>
    cases choices <;>
      simp [search_filter_field_params, exact_param_name, exact_param_alias, exact_param_type,
        hpk, hten, hk]
  | manyToOneRel =>
    simp [search_filter_field_params, exact_param_name, exact_param_alias, exact_param_type,
      hpk, hten, hk]
  | manyToManyRel =>
    simp [search_filter_field_params, exact_param_name, exact_param_alias, exact_param_type,
      hpk, hten, hk]
  | integerField =>
    simp [search_filter_field_params, exact_param_name, exact_param_alias, exact_param_type,
      hpk, hten, hk]
  | floatField =>
    simp [search_filter_field_params, exact_param_name, exact_param_alias, exact_param_type,
      hpk, hten, hk]
  | decimalField =>
    simp [search_filter_field_params, exact_param_name, exact_param_alias, exact_param_type,
      hpk, hten, hk]
  | dateField =>
    simp [search_filter_field_params, exact_param_name, exact_param_alias, exact_param_type,
      hpk, hten, hk]
  | dateTimeField =>
    simp [search_filter_field_params, exact_param_name, exact_param_alias, exact_param_type,
      hpk, hten, hk]
  | otherField =>
    simp [search_filter_field_params, exact_param_name, exact_param_alias, exact_param_type,
      hpk, hten, hk]

/-- C5 counterexample: a many-to-many field (neither the primary key nor the
tenant column) contributes no query parameter at all — the loop bails out
with `continue` before appending anything, so no exact-match parameter
exists for it. -/
theorem search_filter_fields_m2m_counterexample :
    tagsField.primary_key = false ∧ tagsField.name ≠ "tenant_id" ∧
    search_filter_fields none [("tags", tagsField)] = [] := by
  exact ⟨rfl, by decide, rfl⟩

/-- C5 (amended): every introspected field other than the primary key, the
tenant column, many-to-many fields and a foreign key to the parent model
contributes an exact-match parameter (its bucket's first entry): named
`<field>__id__in` with alias `<field>__id` and typed as an optional list of
fixed-length identifier strings for foreign keys, `<field>__count` for
to-many relations, `<field>__in` with alias `<field>` for choice fields, and
the plain field name otherwise. -/
theorem search_filter_fields_exact_param (parentModel : Option String)
    (mfields : List (String × DField)) (mname : String) (field : DField)
    (hmem : (mname, field) ∈ mfields) (hpk : field.primary_key = false)
    (hten : field.name ≠ "tenant_id") (hm2m : field.kind ≠ .manyToMany)
    (hpar : field.kind = .foreignKey →
      ¬(parentModel.isSome = true ∧ field.related_model = parentModel)) :
    { name := exact_param_name mname field,
      type := PyType.optionalT (exact_param_type field),
      aliasName := exact_param_alias mname field } ∈
      search_filter_fields parentModel mfields := by
  unfold search_filter_fields
  refine List.mem_flatten.mpr ⟨search_filter_field_params parentModel mname field, ?_, ?_⟩
  · exact List.mem_map.mpr ⟨(mname, field), hmem, rfl⟩
  · exact mem_of_head?_eq
      (search_filter_field_params_head parentModel mname field hpk hten hm2m hpar)

theorem search_filter_fields_exact_param_witness :
    { name := "author__id__in",
      type := PyType.optionalT (PyType.listT (PyType.constrStr (some 64) (some 64))),
      aliasName := some "author__id" } ∈
      search_filter_fields none [("author", authorField)] := by
  have h := search_filter_fields_exact_param none [("author", authorField)] "author" authorField
    (by simp) rfl (by decide) (by decide) (fun _ h => by simp at h)
  simpa [exact_param_name, exact_param_alias, exact_param_type, authorField] using h

/-- C8 counterexample: `model_fields` exposes the to-many relation
`children` under its own name (and no `children__count` member exists
there); the `__count` renaming happens only in `order_fields`. -/
theorem model_fields_count_counterexample :
    (model_fields regAB none modelA).map Prod.fst =
      ["id", "children", "children__id", "children__title"] ∧
    "children__count" ∉ (model_fields regAB none modelA).map Prod.fst ∧
    "children__count" ∈ order_fields (model_fields regAB none modelA) := by
  exact ⟨rfl, by decide, by decide⟩

/-- C8 (amended): in the `order_fields` enumeration every to-many relation
is exposed as `<name>__count` (ascending and descending); in `model_fields`
itself every model field — to-many relations included — is exposed under
its own (prefixed) name. -/
theorem order_fields_count_exposure (mfields : List (String × DField)) (n : String) (f : DField)
    (hmem : (n, f) ∈ mfields) (hk : f.kind = .manyToOneRel ∨ f.kind = .manyToManyRel) :
    (n ++ "__count") ∈ order_fields mfields ∧
    ("-" ++ (n ++ "__count")) ∈ order_fields mfields ∧
    (∀ (registry : List DModel) (pm : Option String) (fuel : Nat) (model : DModel)
      (pfx : String) (tree : List String), f ∈ model.fields →
        (pfx ++ f.name, f) ∈ get_model_fields registry pm (fuel + 1) model pfx tree) := by
  have hcnt : ∀ x ∈ [n ++ "__count", "-" ++ (n ++ "__count")], x ∈ order_fields mfields := by
    intro x hx
    refine List.mem_flatMap.mpr ⟨(n, f), hmem, ?_⟩
    rcases hk with h | h <;> simp [order_fields, h] <;> simpa using hx
  refine ⟨hcnt _ (by simp), hcnt _ (by simp), ?_⟩
  intro registry pm fuel model pfx tree hf
  simp only [get_model_fields]
  refine List.mem_flatMap.mpr ⟨f, hf, ?_⟩
  dsimp only
  split
  · split
    · simp
    · split
      · simp
      · split
        · simp
        · split
          · simp
          · simp
  · simp

theorem order_fields_count_exposure_witness :
    "children__count" ∈ order_fields [("children", fieldChildren)] ∧
    ("children", fieldChildren) ∈ get_model_fields regAB none 3 modelA "" [] := by
  have h := order_fields_count_exposure [("children", fieldChildren)] "children" fieldChildren
    (by simp) (Or.inl rfl)
  exact ⟨h.1, by simpa using h.2.2 regAB none 2 modelA "" [] (by simp [modelA])⟩

/-- C6: a PATCH transfers with `NO_SUBOBJECTS` and exclude-unset semantics —
a declared field the payload leaves unset keeps its record value — while a
PUT transfers with `SYNC` and no exclude-unset, so every declared payload
field (including an omitted optional one bound to null) is written onto the
record, clearing previously-set values. -/
theorem patch_partial_put_full_replace (a : Option Access) (inst : ORecord) (data : Payload) :
    endpoint_patch_update a inst data =
      transfer_to_orm data inst TransferAction.no_subobjects true a ∧
    endpoint_put_update a inst data = transfer_to_orm data inst TransferAction.sync false a ∧
    (∀ k v, (k, v) ∈ inst.fields → data.setFields.contains k = false →
      (k, v) ∈ (endpoint_patch_update a inst data).fields) ∧
    (∀ k v pv, (k, v) ∈ inst.fields → data.fields.lookup k = some pv →
      data.setFields.contains k = true →
      (k, pv) ∈ (endpoint_patch_update a inst data).fields) ∧
    (∀ k v pv, (k, v) ∈ inst.fields → data.fields.lookup k = some pv →
      (k, pv) ∈ (endpoint_put_update a inst data).fields) := by
  refine ⟨rfl, rfl, fun k v hkv hset => ?_, fun k v pv hkv hl hset => ?_,
    fun k v pv hkv hl => ?_⟩
  · show (k, v) ∈ (transfer_to_orm data inst TransferAction.no_subobjects true a).fields
    refine List.mem_map.mpr ⟨(k, v), hkv, ?_⟩
    cases hlk : data.fields.lookup k with
    | none => simp [hlk]
    | some pv =>
      simp [hlk]
      intro hin
      exact absurd hin (by simpa using hset)
  · show (k, pv) ∈ (transfer_to_orm data inst TransferAction.no_subobjects true a).fields
    refine List.mem_map.mpr ⟨(k, v), hkv, ?_⟩
    simp [hl]
    intro hnin
    exact absurd (by simpa using hset : k ∈ data.setFields) hnin
  · show (k, pv) ∈ (transfer_to_orm data inst TransferAction.sync false a).fields
    refine List.mem_map.mpr ⟨(k, v), hkv, ?_⟩
    simp [hl]

theorem patch_partial_put_full_replace_witness :
    ("colB", some "2") ∈ (endpoint_patch_update none instAB payloadA).fields ∧
    ("colB", none) ∈ (endpoint_put_update none instAB payloadA).fields := by
  have h := patch_partial_put_full_replace none instAB payloadA
  exact ⟨h.2.2.1 "colB" (some "2") (by decide) (by decide),
         h.2.2.2.2 "colB" (some "2") none (by decide) (by decide)⟩

/-- C7: enabling `create_multi` makes descriptor construction raise
`NotImplementedError` before any router or route is created — the
constructor's result carries no routes. -/
theorem create_multi_fails_fast (s : RouterSchemaData) (h : s.create_multi = true)
    (id_ph : String) :
    schema_init s id_ph =
      .error (.notImplementedError "create_multi is not supported for DjangoRouterSchema") := by
  simp [schema_init, h]

theorem create_multi_fails_fast_witness :
    schema_init schemaMulti "/\x7bx_id\x7d" =
      .error (.notImplementedError "create_multi is not supported for DjangoRouterSchema") :=
  create_multi_fails_fast schemaMulti rfl "/\x7bx_id\x7d"

/-- C10: `id_field` is the lowercased model name suffixed with `_id`; with a
parent whose lowercased model name is a prefix of it, that prefix is
stripped first (and a non-prefix parent name strips nothing). -/
theorem id_field_parent_stripping (m : String) :
    id_field m none = strLower m ++ "_id" ∧
    (∀ p rest, strLower m = strLower p ++ rest → id_field m (some p) = rest ++ "_id") ∧
    (∀ p, ((strLower p).data.isPrefixOf (strLower m).data) = false →
      id_field m (some p) = strLower m ++ "_id") := by
  refine ⟨rfl, fun p rest h => ?_, fun p h => ?_⟩
  · simp only [id_field, name_singular]
    rw [h]
    unfold removePrefixPy
    rw [String.data_append]
    have hpre : (strLower p).data.isPrefixOf ((strLower p).data ++ rest.data) = true := by
      rw [List.isPrefixOf_iff_prefix]
      exact List.prefix_append _ _
    rw [if_pos hpre]
    have hdrop : (⟨((strLower p).data ++ rest.data).drop (strLower p).data.length⟩ : String)
        = rest := by
      rw [List.drop_left]
    rw [hdrop]
  · simp only [id_field, name_singular]
    unfold removePrefixPy
    rw [if_neg (by simp [h])]

theorem id_field_parent_stripping_witness :
    strLower "CustomerInvoice" = strLower "Customer" ++ "invoice" ∧
    id_field "CustomerInvoice" (some "Customer") = "invoice_id" := by
  refine ⟨by decide, ?_⟩
  have h := (id_field_parent_stripping "CustomerInvoice").2.1 "Customer" "invoice" (by decide)
  rw [h]
  decide

end Djfapi
